import Mathlib

/-!
Verification of the Tide-Report location widget.

The repository contains three near-duplicate implementations of the same
autocomplete widget.  Each is embedded below as executable Lean definitions:

* `Pub` models `public/location-widget.js` (IIFE with `parseCoordinates`,
  `searchLocation`, `selectLocation`, debounced `handleInput`).
* `V3` models the unnamed variant (IIFE with `parseLatLon`,
  `selectSuggestion`, `checkDirectLatLon`, keyboard navigation, `doSearch`).
* `RW` models the `LocationWidget` class bundled with the README
  (`handleSearch` with a `currentQuery` staleness guard, `geocode`,
  `selectLocation`).

Strings are `List Char`.  Every JavaScript number reached by this code is
produced by parsing a plain decimal literal, so numbers are represented
exactly by `Dec`: a mantissa and a power-of-ten scale.  Network fetches are
modelled by passing the fetch outcome (`FetchResult`) as an argument, and
each function that may fetch also reports whether a request was issued.
-/

/-- Whitespace test modelling both the regex class and the trim method. -/
def isWs (c : Char) : Bool := c == ' ' || c == '\t' || c == '\n' || c == '\r'

/-- Models the trim method on strings: drop leading and trailing whitespace. -/
def trimChars (s : List Char) : List Char :=
  (((s.dropWhile isWs).reverse).dropWhile isWs).reverse

/-- Numeric value of a run of decimal digit characters. -/
def digitsToNat (ds : List Char) : Nat :=
  ds.foldl (fun n c => 10 * n + (c.toNat - 48)) 0

/-- Exact decimal number `man / 10 ^ exp`.  Every number occurring in the
widget is obtained from a decimal literal, so this representation is exact. -/
structure Dec where
  man : Int
  exp : Nat
deriving DecidableEq, Repr

/-- Value order on exact decimals, by cross multiplication. -/
def Dec.le (a b : Dec) : Prop := a.man * 10 ^ b.exp ≤ b.man * 10 ^ a.exp

instance (a b : Dec) : Decidable (Dec.le a b) := by unfold Dec.le; infer_instance

/-- Value equality on exact decimals (representations may differ in scale). -/
def Dec.eqv (a b : Dec) : Prop := a.man * 10 ^ b.exp = b.man * 10 ^ a.exp

instance (a b : Dec) : Decidable (Dec.eqv a b) := by unfold Dec.eqv; infer_instance

def Dec.ofInt (n : Int) : Dec := ⟨n, 0⟩

def Dec.neg (d : Dec) : Dec := ⟨-d.man, d.exp⟩

/-- The decimal denoted by optional sign, integer digits and fraction digits. -/
def mkDec (neg : Bool) (ds fs : List Char) : Dec :=
  ⟨(if neg then -1 else 1) * (digitsToNat (ds ++ fs) : Int), fs.length⟩

/-- Digit characters of a natural number, most significant first. -/
def natDigits (n : Nat) : List Char := Nat.toDigits 10 n

def stripZeros (l : List Char) : List Char :=
  (l.reverse.dropWhile (fun c => c == '0')).reverse

/-- Models number-to-string conversion (template interpolation, toString) for
the finite decimal values produced by this widget: shortest decimal form,
no trailing fraction zeros, no sign on zero. -/
def fmtDec (d : Dec) : List Char :=
  let n := d.man.natAbs
  let s := natDigits n
  let s := if s.length ≤ d.exp then List.replicate (d.exp + 1 - s.length) '0' ++ s else s
  let ip := s.take (s.length - d.exp)
  let fp := stripZeros (s.drop (s.length - d.exp))
  let core := if fp = [] then ip else ip ++ '.' :: fp
  if d.man < 0 then '-' :: core else core

/-- A JavaScript value as it appears in event details and datasets. -/
inductive JsVal where
  | num (d : Dec)
  | nan
  | str (s : List Char)
deriving DecidableEq, Repr

def JsVal.isNum : JsVal → Bool
  | num _ => true
  | _ => false

def takeDigits (s : List Char) : List Char := s.takeWhile Char.isDigit

def dropDigits (s : List Char) : List Char := s.dropWhile Char.isDigit

/-- Models the parseFloat builtin on the decimal fragment relevant here:
skip leading whitespace, optional sign, then the longest prefix of digits
with at most one dot; `none` is NaN.  (Exponent and Infinity forms never
arise from this widget and are outside the modelled fragment.) -/
def jsParseFloat (s : List Char) : Option Dec :=
  let s1 := s.dropWhile isWs
  let p : Bool × List Char :=
    match s1 with
    | '-' :: r => (true, r)
    | '+' :: r => (false, r)
    | _ => (false, s1)
  let ds := takeDigits p.2
  let rest := dropDigits p.2
  let fs : List Char :=
    match rest with
    | '.' :: r2 => takeDigits r2
    | _ => []
  if ds = [] ∧ fs = [] then none else some (mkDec p.1 ds fs)

/-- Models parseFloat applied to an arbitrary value (numbers pass through). -/
def parseFloatVal : JsVal → Option Dec
  | .num d => some d
  | .nan => none
  | .str s => jsParseFloat s

/-- One raw geocoding result (also reused as a rendered candidate record):
the fields of interest are display_name, lat and lon. -/
structure RawResult where
  display_name : List Char
  lat : JsVal
  lon : JsVal
deriving DecidableEq, Repr

/-- Parsed body of a geocoding response. -/
inductive JsonBody where
  | arr (items : List RawResult)
  | nonArray
deriving DecidableEq, Repr

/-- Outcome of one fetch to the geocoding endpoint. -/
inductive FetchResult where
  | ok (body : JsonBody)
  | httpError (status : Nat)
  | netError
deriving DecidableEq, Repr

/-- Transport failure: non-success status, thrown error, or non-array body. -/
def FetchResult.failed : FetchResult → Bool
  | .ok (.arr _) => false
  | .ok .nonArray => true
  | .httpError _ => true
  | .netError => true

/-- Detail of a location-selected notification. -/
structure EventDetail where
  display_name : List Char
  lat : JsVal
  lon : JsVal
deriving DecidableEq, Repr

/-- Split a string at its first comma, if any. -/
def splitAtComma : List Char → Option (List Char × List Char)
  | [] => none
  | c :: rest =>
    if c = ',' then some ([], rest)
    else (splitAtComma rest).map (fun p => (c :: p.1, p.2))

/-- The shared shape of the coordinate regexes: a number token, optional
whitespace, a comma, optional whitespace, a number token, end of string.
Number tokens contain no comma, so anchored matching is equivalent to
splitting at the first comma and matching each side exactly. -/
def coordSplit {α : Type} (tok : List Char → Option α) (s : List Char) :
    Option (α × α) :=
  match splitAtComma s with
  | none => none
  | some (a, b) =>
    match tok ((a.reverse.dropWhile isWs).reverse), tok (b.dropWhile isWs) with
    | some x, some y => some (x, y)
    | _, _ => none

/-- The coordinate range test shared by the variants that validate ranges:
lat in [-90, 90] and lon in [-180, 180]. -/
def latLonInRange (lat lon : Dec) : Prop :=
  Dec.le (Dec.ofInt (-90)) lat ∧ Dec.le lat (Dec.ofInt 90) ∧
  Dec.le (Dec.ofInt (-180)) lon ∧ Dec.le lon (Dec.ofInt 180)

instance (lat lon : Dec) : Decidable (latLonInRange lat lon) := by
  unfold latLonInRange; infer_instance

namespace Pub

/-- One component of the parseCoordinates regex: digits, optional dot,
digits.  An unsigned match needs at least two digits when there is no dot,
and at least one digit on each side of the dot otherwise. -/
def numBody (s : List Char) : Option Dec :=
  let ds := takeDigits s
  if ds = [] then none
  else
    match dropDigits s with
    | [] => if 2 ≤ ds.length then some (mkDec false ds []) else none
    | '.' :: r2 =>
      let fs := takeDigits r2
      if fs = [] then none
      else if dropDigits r2 = [] then some (mkDec false ds fs) else none
    | _ => none

def numTok : List Char → Option Dec
  | '-' :: rest => (numBody rest).map Dec.neg
  | s => numBody s

/-- parseCoordinates: trim, match the coordinate regex, check ranges. -/
def parseCoordinates (text : List Char) : Option (Dec × Dec) :=
  match coordSplit numTok (trimChars text) with
  | some (lat, lon) => if latLonInRange lat lon then some (lat, lon) else none
  | none => none

/-- searchLocation: length checks, then the fetch; the second component
reports whether a network request was issued. -/
def searchLocation (query : List Char) (f : FetchResult) :
    List RawResult × Bool :=
  if (trimChars query).length < 2 then ([], false)
  else if 200 < (trimChars query).length then ([], false)
  else
    match f with
    | .ok (.arr rs) => (rs, true)
    | .ok .nonArray => ([], true)
    | .httpError _ => ([], true)
    | .netError => ([], true)

/-- Content of the suggestion dropdown after a render. -/
inductive Render where
  | hide
  | coord (lat lon : Dec)
  | results (rs : List RawResult)
deriving DecidableEq, Repr

/-- Body of the debounced handleInput, given the current input value and
the fetch outcome; returns the render action and whether a request was
issued. -/
def handleInputBody (value : List Char) (f : FetchResult) : Render × Bool :=
  if trimChars value = [] then (.hide, false)
  else
    match parseCoordinates (trimChars value) with
    | some (lat, lon) => (.coord lat lon, false)
    | none =>
      match searchLocation (trimChars value) f with
      | (rs, net) => if rs = [] then (.hide, net) else (.results rs, net)

/-- Atomic segments of a handleInput activation on the single JS thread:
`begin q` is the synchronous part up to the await of searchLocation, and
`finish q f` is the continuation running when that fetch settles. -/
inductive Act where
  | begin (q : List Char)
  | finish (q : List Char) (f : FetchResult)

/-- Effect of one segment on the suggestion dropdown.  `begin` renders
immediately for empty and coordinate inputs and leaves the dropdown alone
when it starts a fetch; `finish` renders whatever its own fetch returned,
with no staleness check anywhere. -/
def actStep (d : Render) : Act → Render
  | .begin q =>
    if trimChars q = [] then .hide
    else
      match parseCoordinates (trimChars q) with
      | some (lat, lon) => .coord lat lon
      | none => d
  | .finish q f =>
    match searchLocation (trimChars q) f with
    | (rs, _) => if rs = [] then .hide else .results rs

/-- The observable widget state used by selectLocation. -/
structure UI where
  inputValue : List Char
  visible : Bool
deriving DecidableEq, Repr

/-- The display_name fallback string built by selectLocation. -/
def coordName (lat lon : Dec) : List Char :=
  ("Coordinates: ").toList ++ fmtDec lat ++ ',' :: ' ' :: fmtDec lon

/-- selectLocation: validate the coordinates, then set the input, hide the
dropdown and emit exactly one location-selected event; on validation
failure return with no state change and no event. -/
def selectLocation (loc : RawResult) (ui : UI) : UI × List EventDetail :=
  match parseFloatVal loc.lat, parseFloatVal loc.lon with
  | some lat, some lon =>
    ({ inputValue :=
         if loc.display_name = [] then fmtDec lat ++ ',' :: ' ' :: fmtDec lon
         else loc.display_name,
       visible := false },
     [{ display_name :=
          if loc.display_name = [] then coordName lat lon else loc.display_name,
        lat := JsVal.num lat, lon := JsVal.num lon }])
  | _, _ => (ui, [])

/-- Widget state for the debounce pipeline: the dropdown and the pending
debounced call, if any. -/
structure Sys where
  dom : Render
  pending : Option (List Char)
deriving DecidableEq, Repr

/-- Synchronous part of the input listener: the debounce wrapper clears and
re-arms its timer; nothing else runs until the timer fires. -/
def onInputSync (v : List Char) (s : Sys) : Sys := { s with pending := some v }

/-- The debounce timer firing: run the handleInput body on the recorded
value; reports whether a network request was issued. -/
def debounceFire (f : FetchResult) (s : Sys) : Sys × Bool :=
  match s.pending with
  | none => (s, false)
  | some v =>
    match handleInputBody v f with
    | (r, net) => ({ dom := r, pending := none }, net)

end Pub

namespace V3

/-- One component of the parseLatLon regex: digits with an optional
fractional part; the matched characters themselves are returned. -/
def numBody (s : List Char) : Option (List Char) :=
  let ds := takeDigits s
  if ds = [] then none
  else
    match dropDigits s with
    | [] => some ds
    | '.' :: r2 =>
      let fs := takeDigits r2
      if fs = [] then none
      else if dropDigits r2 = [] then some (ds ++ '.' :: fs) else none
    | _ => none

def numTok : List Char → Option (List Char)
  | '-' :: rest => (numBody rest).map (fun t => '-' :: t)
  | s => numBody s

/-- parseLatLon: trim and match; on success the two matched component
strings are returned unparsed, with no range check anywhere. -/
def parseLatLon (text : List Char) : Option (List Char × List Char) :=
  coordSplit numTok (trimChars text)

/-- A rendered list item: its text and its data-lat / data-lon strings. -/
structure LItem where
  text : List Char
  dlat : List Char
  dlon : List Char
deriving DecidableEq, Repr

/-- Widget state: dropdown visibility, rendered items, selectedIndex and
the input value. -/
structure St where
  hidden : Bool
  items : List LItem
  sel : Int
  inputValue : List Char
deriving DecidableEq, Repr

/-- selectSuggestion: copy the item text into the input, hide the list and
dispatch one event whose lat and lon are the dataset strings. -/
def selectSuggestion (li : LItem) (s : St) : St × List EventDetail :=
  ({ s with inputValue := li.text, hidden := true },
   [{ display_name := li.text, lat := JsVal.str li.dlat, lon := JsVal.str li.dlon }])

/-- checkDirectLatLon: re-parse the text and, if it is a coordinate
literal, dispatch one event built from the matched strings; the input and
the dropdown are left untouched. -/
def checkDirectLatLon (text : List Char) : List EventDetail :=
  match parseLatLon text with
  | none => []
  | some (a, b) =>
    [{ display_name := a ++ ',' :: ' ' :: b, lat := JsVal.str a, lon := JsVal.str b }]

/-- The Enter branch of the keydown listener.  The whole listener returns
early when the dropdown is hidden or empty; otherwise a valid selection is
committed, and failing that the input is re-parsed as coordinates. -/
def enterKey (s : St) : St × List EventDetail :=
  if s.hidden ∨ s.items = [] then (s, [])
  else
    if h : 0 ≤ s.sel ∧ s.sel.toNat < s.items.length then
      selectSuggestion (s.items.get ⟨s.sel.toNat, h.2⟩) s
    else
      (s, checkDirectLatLon s.inputValue)

/-- The ArrowDown branch of the keydown listener. -/
def arrowDown (s : St) : St :=
  if s.hidden ∨ s.items = [] then s
  else { s with sel := min (s.sel + 1) ((s.items.length : Int) - 1) }

/-- The ArrowUp branch of the keydown listener. -/
def arrowUp (s : St) : St :=
  if s.hidden ∨ s.items = [] then s
  else { s with sel := max (s.sel - 1) 0 }

/-- Body of the debounced doSearch: returns the list handed to
showSuggestions (the dropdown hides exactly when it is empty), whether a
network request was issued, and the new selectedIndex when one is
assigned. -/
def doSearchBody (value : List Char) (f : FetchResult) :
    List RawResult × Bool × Option Int :=
  if trimChars value = [] then ([], false, none)
  else
    match parseLatLon (trimChars value) with
    | some (a, b) =>
      ([{ display_name := a ++ ',' :: ' ' :: b,
          lat := JsVal.str a, lon := JsVal.str b }], false, some 0)
    | none =>
      match f with
      | .ok (.arr rs) =>
        (rs.map (fun r => { display_name := r.display_name, lat := r.lat, lon := r.lon }),
         true, some (-1))
      | .ok .nonArray => ([], true, none)
      | .httpError _ => ([], true, none)
      | .netError => ([], true, none)

end V3

namespace RW

/-- One component of the README coordinate regex: digits, optional dot,
then any number of digits. -/
def numBody (s : List Char) : Option Dec :=
  let ds := takeDigits s
  if ds = [] then none
  else
    match dropDigits s with
    | [] => some (mkDec false ds [])
    | '.' :: r2 =>
      let fs := takeDigits r2
      if dropDigits r2 = [] then some (mkDec false ds fs) else none
    | _ => none

def numTok : List Char → Option Dec
  | '-' :: rest => (numBody rest).map Dec.neg
  | s => numBody s

/-- The coordinate branch of handleSearch: regex match plus range check
(out of range falls through to geocoding, exactly like no match). -/
def coordCheck (q : List Char) : Option (Dec × Dec) :=
  match coordSplit numTok q with
  | some (lat, lon) => if latLonInRange lat lon then some (lat, lon) else none
  | none => none

/-- Contents of the suggestions container. -/
inductive Display where
  | hiddenD
  | loading
  | notice (msg : List Char)
  | shown (items : List RawResult)
deriving DecidableEq, Repr

/-- Widget state: the latest issued query, the input value and the
suggestions container. -/
structure St where
  currentQuery : List Char
  inputValue : List Char
  display : Display
deriving DecidableEq, Repr

def noLocationsMsg : List Char := ("No locations found").toList

def failedMsg : List Char := ("Search failed. Please try again.").toList

/-- The synthesized candidate rendered for a typed coordinate pair; lat and
lon are stored with toString. -/
def synthCand (lat lon : Dec) : RawResult :=
  { display_name := ("Coordinates: ").toList ++ fmtDec lat ++ ',' :: ' ' :: fmtDec lon,
    lat := JsVal.str (fmtDec lat),
    lon := JsVal.str (fmtDec lon) }

/-- Synchronous part of handleSearch: record the query as current, then
either render the synthesized candidate (coordinate branch, no fetch) or
show the loading notice and start the fetch. -/
def handleSearch (q : List Char) (s : St) : St :=
  match coordCheck q with
  | some (lat, lon) =>
    { s with currentQuery := q, display := .shown [synthCand lat lon] }
  | none => { s with currentQuery := q, display := .loading }

/-- Continuation of handleSearch when the geocode settles: render only if
the query is still the current one, errors becoming notices. -/
def settle (q : List Char) (f : FetchResult) (s : St) : St :=
  if q = s.currentQuery then
    match f with
    | .ok (.arr rs) =>
      if rs = [] then { s with display := .notice noLocationsMsg }
      else { s with display := .shown rs }
    | .ok .nonArray => { s with display := .notice noLocationsMsg }
    | .httpError _ => { s with display := .notice failedMsg }
    | .netError => { s with display := .notice failedMsg }
  else s

/-- The input listener: trim; below the minimum length, hide at once and
schedule nothing; otherwise re-arm the debounce timer with this query. -/
def onInput (v : List Char) (s : St) : St × Option (List Char) :=
  if (trimChars v).length < 2 then ({ s with display := .hiddenD }, none)
  else (s, some (trimChars v))

/-- Candidates a display state surfaces to the user. -/
def candidatesOf : Display → List RawResult
  | .shown items => items
  | _ => []

/-- parseFloat as used in the event detail: NaN when parsing fails. -/
def floatOrNaN (v : JsVal) : JsVal :=
  match parseFloatVal v with
  | some d => JsVal.num d
  | none => JsVal.nan

/-- selectLocation: set the input to the display name, hide the list and
emit one event with parseFloat applied to lat and lon (no NaN guard). -/
def selectLocation (loc : RawResult) (s : St) : St × List EventDetail :=
  ({ s with inputValue := loc.display_name, display := .hiddenD },
   [{ display_name := loc.display_name,
      lat := floatOrNaN loc.lat, lon := floatOrNaN loc.lon }])

end RW

/-! ### General lemmas about the embedded primitives -/

theorem trimChars_eq_rdrop (s : List Char) :
    trimChars s = List.rdropWhile isWs (s.dropWhile isWs) := rfl

theorem trimChars_length_le (s : List Char) : (trimChars s).length ≤ s.length := by
  rw [trimChars_eq_rdrop]
  exact le_trans (List.rdropWhile_prefix isWs _).length_le
    (List.dropWhile_suffix isWs).length_le

theorem trimChars_idem (s : List Char) : trimChars (trimChars s) = trimChars s := by
  have h2 : List.dropWhile isWs (List.rdropWhile isWs (s.dropWhile isWs)) =
      List.rdropWhile isWs (s.dropWhile isWs) := by
    rw [List.dropWhile_eq_self_iff]
    intro hl
    have hpre := List.rdropWhile_prefix isWs (s.dropWhile isWs)
    have hlen : 0 < (s.dropWhile isWs).length := lt_of_lt_of_le hl hpre.length_le
    have hget := hpre.getElem hl
    rw [List.get_eq_getElem, hget]
    have hz := List.dropWhile_get_zero_not isWs s hlen
    rwa [List.get_eq_getElem] at hz
  rw [trimChars_eq_rdrop s, trimChars_eq_rdrop, h2, List.rdropWhile_idempotent]

theorem coordSplit_none_short {α : Type} (tok : List Char → Option α)
    (htok : tok [] = none) (l : List Char) (h : l.length < 2) :
    coordSplit tok l = none := by
  rcases l with _ | ⟨c, _ | ⟨d, t⟩⟩
  · rfl
  · unfold coordSplit
    by_cases hc : c = ','
    · subst hc
      simp [splitAtComma, htok]
    · simp [splitAtComma, hc]
  · simp at h
    omega

theorem pub_parseCoordinates_short (l : List Char) (h : l.length < 2) :
    Pub.parseCoordinates l = none := by
  unfold Pub.parseCoordinates
  rw [coordSplit_none_short Pub.numTok rfl (trimChars l)
    (lt_of_le_of_lt (trimChars_length_le l) h)]

theorem rw_handleSearch_currentQuery (q : List Char) (s : RW.St) :
    (RW.handleSearch q s).currentQuery = q := by
  unfold RW.handleSearch
  rcases hc : RW.coordCheck q with _ | ⟨lat, lon⟩ <;> rfl

theorem v3_arrowDown_iter_sel (N : Nat) (items : List V3.LItem) (sel : Int)
    (v : List Char) (h2 : ¬ items = []) (h3 : sel ≤ (items.length : Int) - 1) :
    (V3.arrowDown^[N] ⟨false, items, sel, v⟩).sel
      = min (sel + N) ((items.length : Int) - 1) := by
  induction N generalizing sel with
  | zero =>
    simp only [Function.iterate_zero, id_eq, Nat.cast_zero]
    omega
  | succ n ih =>
    rw [Function.iterate_succ_apply]
    have hstep : V3.arrowDown ⟨false, items, sel, v⟩
        = ⟨false, items, min (sel + 1) ((items.length : Int) - 1), v⟩ := by
      unfold V3.arrowDown
      rw [if_neg]
      simp [h2]
    rw [hstep, ih (min (sel + 1) ((items.length : Int) - 1)) (min_le_right _ _)]
    push_cast
    omega

/-! ### C8: moveActive clamping and iteration -/

/-- C8: starting from selectedIndex -1 on a visible non-empty list of
length L, N ArrowDown steps leave selectedIndex at min (N-1) (L-1); each
ArrowDown or ArrowUp step keeps the index inside [0, L-1]; and both are
no-ops when the list is hidden or empty. -/
theorem C8_move_active (L N : Nat) (items : List V3.LItem) (v : List Char)
    (hL : items.length = L) (h1 : 1 ≤ L) :
    (V3.arrowDown^[N] ⟨false, items, -1, v⟩).sel = min ((N : Int) - 1) ((L : Int) - 1) ∧
    (∀ s : V3.St, s.hidden = false → ¬ s.items = [] →
      -1 ≤ s.sel → s.sel ≤ (s.items.length : Int) - 1 →
      (0 ≤ (V3.arrowDown s).sel ∧ (V3.arrowDown s).sel ≤ (s.items.length : Int) - 1) ∧
      (0 ≤ (V3.arrowUp s).sel ∧ (V3.arrowUp s).sel ≤ (s.items.length : Int) - 1)) ∧
    (∀ s : V3.St, (s.hidden = true ∨ s.items = []) →
      V3.arrowDown s = s ∧ V3.arrowUp s = s) := by
  refine ⟨?_, ?_, ?_⟩
  · have hne : ¬ items = [] := by
      intro h
      rw [h] at hL
      simp at hL
      omega
    rw [v3_arrowDown_iter_sel N items (-1) v hne (by rw [hL]; omega), hL]
    omega
  · intro s hs1 hs2 hs3 hs4
    have hlen : 1 ≤ s.items.length := List.length_pos.mpr hs2
    have hd : V3.arrowDown s = { s with sel := min (s.sel + 1) ((s.items.length : Int) - 1) } := by
      unfold V3.arrowDown
      rw [if_neg]
      simp [hs1, hs2]
    have hu : V3.arrowUp s = { s with sel := max (s.sel - 1) 0 } := by
      unfold V3.arrowUp
      rw [if_neg]
      simp [hs1, hs2]
    rw [hd, hu]
    refine ⟨⟨?_, ?_⟩, ⟨?_, ?_⟩⟩
    · show 0 ≤ min (s.sel + 1) ((s.items.length : Int) - 1)
      omega
    · show min (s.sel + 1) ((s.items.length : Int) - 1) ≤ (s.items.length : Int) - 1
      omega
    · show 0 ≤ max (s.sel - 1) 0
      omega
    · show max (s.sel - 1) 0 ≤ (s.items.length : Int) - 1
      omega
  · intro s hs
    constructor
    · unfold V3.arrowDown
      rw [if_pos]
      simpa using hs
    · unfold V3.arrowUp
      rw [if_pos]
      simpa using hs

/-- Witness for C8 at L = 2, N = 3 on a concrete state. -/
theorem C8_move_active_witness :
    (V3.arrowDown^[3] ⟨false, [⟨['A'], ['1'], ['2']⟩, ⟨['B'], ['3'], ['4']⟩], -1, []⟩).sel =
      min (((3 : Nat) : Int) - 1) (((2 : Nat) : Int) - 1) :=
  (C8_move_active 2 3 [⟨['A'], ['1'], ['2']⟩, ⟨['B'], ['3'], ['4']⟩] []
    rfl (by omega)).1

/-! ### C9: over-long queries never reach the network -/

/-- C9: in public/location-widget.js, a query whose trimmed text is longer
than 200 characters makes searchLocation return an empty list with no
network request. -/
theorem C9_long_query (q : List Char) (f : FetchResult)
    (h : 200 < (trimChars q).length) :
    Pub.searchLocation q f = ([], false) := by
  unfold Pub.searchLocation
  rw [if_neg (by omega), if_pos h]

set_option maxRecDepth 4000 in
/-- Witness for C9 on a 201-character query. -/
theorem C9_long_query_witness :
    200 < (trimChars (List.replicate 201 'a')).length ∧
    Pub.searchLocation (List.replicate 201 'a') FetchResult.netError = ([], false) :=
  ⟨by decide, C9_long_query (List.replicate 201 'a') FetchResult.netError (by decide)⟩

/-! ### C10: selectLocation is a no-op on unparseable coordinates -/

/-- C10: in public/location-widget.js, when a candidate lat or lon does not
parse as a number, selectLocation emits no event and leaves the input text
and the dropdown visibility unchanged. -/
theorem C10_invalid_coords_noop (loc : RawResult) (ui : Pub.UI)
    (h : parseFloatVal loc.lat = none ∨ parseFloatVal loc.lon = none) :
    Pub.selectLocation loc ui = (ui, []) := by
  unfold Pub.selectLocation
  rcases h with h | h
  · rw [h]
  · rw [h]
    rcases parseFloatVal loc.lat with _ | d <;> rfl

/-- Witness for C10 on a candidate whose lat is not numeric. -/
theorem C10_invalid_coords_noop_witness :
    parseFloatVal (JsVal.str ['a']) = none ∧
    Pub.selectLocation ⟨['X'], JsVal.str ['a'], JsVal.str ['1']⟩ ⟨['X'], true⟩ =
      (⟨['X'], true⟩, []) :=
  ⟨by decide,
   C10_invalid_coords_noop ⟨['X'], JsVal.str ['a'], JsVal.str ['1']⟩ ⟨['X'], true⟩
     (Or.inl (by decide))⟩

/-! ### C5: transport failures resolve to an empty candidate list -/

theorem pub_searchLocation_failed (q : List Char) (f : FetchResult)
    (hf : f.failed = true) : (Pub.searchLocation q f).1 = [] := by
  unfold Pub.searchLocation
  split
  · rfl
  · split
    · rfl
    · rcases f with (rs | _) | n | _
      · simp [FetchResult.failed] at hf
      · rfl
      · rfl
      · rfl

theorem v3_doSearchBody_failed (q : List Char) (f : FetchResult)
    (hf : f.failed = true) (hv : V3.parseLatLon (trimChars q) = none) :
    (V3.doSearchBody q f).1 = [] := by
  unfold V3.doSearchBody
  split
  · rfl
  · rw [hv]
    rcases f with (rs | _) | n | _
    · simp [FetchResult.failed] at hf
    · rfl
    · rfl
    · rfl

theorem rw_settle_failed (q : List Char) (f : FetchResult) (s : RW.St)
    (hf : f.failed = true) (hcur : s.currentQuery = q) :
    RW.candidatesOf (RW.settle q f s).display = [] := by
  unfold RW.settle
  rw [if_pos hcur.symm]
  rcases f with (rs | _) | n | _
  · simp [FetchResult.failed] at hf
  · rfl
  · rfl
  · rfl

/-- C5: when the geocoding fetch fails (non-success HTTP status, thrown
network error, or malformed non-array payload) on a non-coordinate query,
every variant recovers to an empty candidate list: the public
searchLocation returns an empty list, the unnamed variant passes the empty
list to showSuggestions (hiding the dropdown), and the README variant
replaces the list with a notice carrying no candidates.  Each embedded
handler is a total function, mirroring the enclosing try/catch: the
failure never escapes as an exception. -/
theorem C5_transport_failure (q : List Char) (f : FetchResult) (st : RW.St)
    (hf : f.failed = true) (hv : V3.parseLatLon (trimChars q) = none) :
    (Pub.searchLocation q f).1 = [] ∧
    (V3.doSearchBody q f).1 = [] ∧
    RW.candidatesOf (RW.settle q f { st with currentQuery := q }).display = [] :=
  ⟨pub_searchLocation_failed q f hf, v3_doSearchBody_failed q f hf hv,
   rw_settle_failed q f { st with currentQuery := q } hf rfl⟩

/-- Witness for C5 on the query paris and a thrown network error. -/
theorem C5_transport_failure_witness :
    FetchResult.netError.failed = true ∧
    V3.parseLatLon (trimChars (("paris").toList)) = none ∧
    (Pub.searchLocation (("paris").toList) FetchResult.netError).1 = [] ∧
    (V3.doSearchBody (("paris").toList) FetchResult.netError).1 = [] ∧
    RW.candidatesOf (RW.settle (("paris").toList) FetchResult.netError
      ⟨("paris").toList, [], RW.Display.loading⟩).display = [] := by
  have h := C5_transport_failure (("paris").toList) FetchResult.netError
    ⟨[], [], RW.Display.loading⟩ rfl (by decide)
  exact ⟨rfl, by decide, h.1, h.2.1, h.2.2⟩

/-! ### C1: late fetches for superseded queries -/

/-- C1 counterexample: public/location-widget.js keeps no record of the
most recently issued query.  In the interleaving below, query aa is issued
before query bb, the bb fetch resolves first, and when the aa fetch
resolves last its results are rendered: the list shown is the earlier
query's, not the latest one's, so the stale result is not discarded. -/
theorem C1_counterexample_stale_render :
    List.foldl Pub.actStep Pub.Render.hide
      [Pub.Act.begin ['a', 'a'], Pub.Act.begin ['b', 'b'],
       Pub.Act.finish ['b', 'b']
         (FetchResult.ok (JsonBody.arr [⟨['R', '2'], JsVal.str ['1'], JsVal.str ['2']⟩])),
       Pub.Act.finish ['a', 'a']
         (FetchResult.ok (JsonBody.arr [⟨['R', '1'], JsVal.str ['3'], JsVal.str ['4']⟩]))] =
      Pub.Render.results [⟨['R', '1'], JsVal.str ['3'], JsVal.str ['4']⟩] ∧
    Pub.Render.results [(⟨['R', '1'], JsVal.str ['3'], JsVal.str ['4']⟩ : RawResult)] ≠
      Pub.Render.results [⟨['R', '2'], JsVal.str ['1'], JsVal.str ['2']⟩] := by
  decide

/-- C1 amended: the README LocationWidget variant implements the staleness
guard: after a newer query with different text is issued, a settling fetch
for the older query changes nothing, while a fetch for the current query
renders its results.  public/location-widget.js has no such guard: a
finishing fetch always renders its own non-empty results, whatever was
issued in between. -/
theorem C1_staleness_guard :
    (∀ (s : RW.St) (q1 q2 : List Char) (f : FetchResult), ¬ q1 = q2 →
      RW.settle q1 f (RW.handleSearch q2 (RW.handleSearch q1 s)) =
        RW.handleSearch q2 (RW.handleSearch q1 s)) ∧
    (∀ (s : RW.St) (q1 q2 : List Char) (rs : List RawResult), ¬ rs = [] →
      (RW.settle q2 (FetchResult.ok (JsonBody.arr rs))
          (RW.handleSearch q2 (RW.handleSearch q1 s))).display =
        RW.Display.shown rs) ∧
    (∀ (d : Pub.Render) (q : List Char) (f : FetchResult) (rs : List RawResult),
      Pub.searchLocation (trimChars q) f = (rs, true) → ¬ rs = [] →
      Pub.actStep d (Pub.Act.finish q f) = Pub.Render.results rs) := by
  refine ⟨?_, ?_, ?_⟩
  · intro s q1 q2 f hne
    unfold RW.settle
    rw [if_neg]
    rw [rw_handleSearch_currentQuery]
    exact hne
  · intro s q1 q2 rs hrs
    unfold RW.settle
    rw [if_pos (rw_handleSearch_currentQuery q2 _).symm]
    simp [hrs]
  · intro d q f rs hs hrs
    simp only [Pub.actStep]
    rw [hs]
    rw [if_neg hrs]

/-- Witness for C1 on concrete queries a then b. -/
theorem C1_staleness_guard_witness :
    RW.settle ['a'] FetchResult.netError
        (RW.handleSearch ['b'] (RW.handleSearch ['a'] ⟨[], [], RW.Display.hiddenD⟩)) =
      RW.handleSearch ['b'] (RW.handleSearch ['a'] ⟨[], [], RW.Display.hiddenD⟩) ∧
    (RW.settle ['b'] (FetchResult.ok (JsonBody.arr [⟨['R'], JsVal.str ['1'], JsVal.str ['2']⟩]))
        (RW.handleSearch ['b'] (RW.handleSearch ['a'] ⟨[], [], RW.Display.hiddenD⟩))).display =
      RW.Display.shown [⟨['R'], JsVal.str ['1'], JsVal.str ['2']⟩] ∧
    Pub.actStep Pub.Render.hide
        (Pub.Act.finish ['a', 'a']
          (FetchResult.ok (JsonBody.arr [⟨['R'], JsVal.str ['1'], JsVal.str ['2']⟩]))) =
      Pub.Render.results [⟨['R'], JsVal.str ['1'], JsVal.str ['2']⟩] :=
  ⟨C1_staleness_guard.1 ⟨[], [], RW.Display.hiddenD⟩ ['a'] ['b'] FetchResult.netError (by decide),
   C1_staleness_guard.2.1 ⟨[], [], RW.Display.hiddenD⟩ ['a'] ['b']
     [⟨['R'], JsVal.str ['1'], JsVal.str ['2']⟩] (by decide),
   C1_staleness_guard.2.2 Pub.Render.hide ['a', 'a']
     (FetchResult.ok (JsonBody.arr [⟨['R'], JsVal.str ['1'], JsVal.str ['2']⟩]))
     [⟨['R'], JsVal.str ['1'], JsVal.str ['2']⟩] (by decide) (by decide)⟩

/-! ### C2: coordinate literals resolve locally -/

/-- C2 counterexample: the input 5, 5 matches the claimed coordinate
grammar (optional sign, digits, optional fractional part, comma,
whitespace, second number) with both components in range, as witnessed by
the unnamed variant regex, but the public variant regex demands two digit
characters per component, so parseCoordinates rejects it and handleInput
falls through to a network search with no synthesized candidate. -/
theorem C2_counterexample_single_digit :
    V3.parseLatLon ['5', ',', ' ', '5'] = some (['5'], ['5']) ∧
    jsParseFloat ['5'] = some ⟨5, 0⟩ ∧
    latLonInRange ⟨5, 0⟩ ⟨5, 0⟩ ∧
    Pub.parseCoordinates ['5', ',', ' ', '5'] = none ∧
    Pub.handleInputBody ['5', ',', ' ', '5'] (FetchResult.ok (JsonBody.arr [])) =
      (Pub.Render.hide, true) := by
  decide

/-- C2 amended: each variant resolves inputs matching its own coordinate
regex with exactly one synthesized candidate carrying the parsed values
unchanged, and no network request: the unnamed variant for the full
claimed grammar (its components are kept as the matched strings), the
public and README variants only for inputs their stricter or looser
regexes accept, with the range check applied. -/
theorem C2_coordinate_resolution :
    (∀ (t a b : List Char) (f : FetchResult),
      V3.parseLatLon (trimChars t) = some (a, b) →
      V3.doSearchBody t f =
        ([{ display_name := a ++ ',' :: ' ' :: b,
            lat := JsVal.str a, lon := JsVal.str b }], false, some 0)) ∧
    (∀ (t : List Char) (lat lon : Dec) (f : FetchResult),
      Pub.parseCoordinates (trimChars t) = some (lat, lon) →
      Pub.handleInputBody t f = (Pub.Render.coord lat lon, false)) ∧
    (∀ (q : List Char) (lat lon : Dec) (s : RW.St),
      RW.coordCheck q = some (lat, lon) →
      RW.handleSearch q s =
        { s with currentQuery := q, display := RW.Display.shown [RW.synthCand lat lon] }) := by
  refine ⟨?_, ?_, ?_⟩
  · intro t a b f h
    unfold V3.doSearchBody
    split
    · rename_i ht
      rw [ht] at h
      have hz : V3.parseLatLon ([] : List Char) = none := rfl
      rw [hz] at h
      simp at h
    · rw [h]
  · intro t lat lon f h
    unfold Pub.handleInputBody
    split
    · rename_i ht
      rw [ht] at h
      have hz : Pub.parseCoordinates ([] : List Char) = none := rfl
      rw [hz] at h
      simp at h
    · rw [h]
  · intro q lat lon s h
    unfold RW.handleSearch
    rw [h]

/-- Witness for C2 on the input 1.5, 2.5, accepted by all three regexes. -/
theorem C2_coordinate_resolution_witness :
    V3.doSearchBody (("1.5, 2.5").toList) FetchResult.netError =
      ([{ display_name := ("1.5").toList ++ ',' :: ' ' :: ("2.5").toList,
          lat := JsVal.str (("1.5").toList), lon := JsVal.str (("2.5").toList) }],
       false, some 0) ∧
    Pub.handleInputBody (("1.5, 2.5").toList) FetchResult.netError =
      (Pub.Render.coord ⟨15, 1⟩ ⟨25, 1⟩, false) ∧
    RW.handleSearch (("1.5, 2.5").toList) ⟨[], [], RW.Display.hiddenD⟩ =
      { currentQuery := ("1.5, 2.5").toList, inputValue := [],
        display := RW.Display.shown [RW.synthCand ⟨15, 1⟩ ⟨25, 1⟩] } :=
  ⟨C2_coordinate_resolution.1 (("1.5, 2.5").toList) (("1.5").toList) (("2.5").toList)
     FetchResult.netError (by decide),
   C2_coordinate_resolution.2.1 (("1.5, 2.5").toList) ⟨15, 1⟩ ⟨25, 1⟩
     FetchResult.netError (by decide),
   C2_coordinate_resolution.2.2 (("1.5, 2.5").toList) ⟨15, 1⟩ ⟨25, 1⟩
     ⟨[], [], RW.Display.hiddenD⟩ (by decide)⟩

/-! ### C3: what a commit publishes -/

/-- C3 counterexample: in the unnamed variant, committing a suggestion
dispatches the dataset strings unconverted: the published lat is the
string 1.5, not a numeric value, contradicting the claim that every
committed candidate publishes numeric coordinates. -/
theorem C3_counterexample_string_detail :
    (V3.selectSuggestion ⟨['A'], ['1', '.', '5'], ['2']⟩
        ⟨false, [⟨['A'], ['1', '.', '5'], ['2']⟩], 0, []⟩).2 =
      [⟨['A'], JsVal.str ['1', '.', '5'], JsVal.str ['2']⟩] ∧
    (JsVal.str ['1', '.', '5']).isNum = false := by
  decide

/-- C3 amended: every commit sets the input text to the candidate display
name (the public variant falls back to a coordinate string when it is
empty), hides the list, and publishes exactly one notification; the public
and README variants publish numeric lat and lon, while the unnamed variant
publishes the dataset strings unconverted. -/
theorem C3_commit_behavior :
    (∀ (loc : RawResult) (ui : Pub.UI) (lat lon : Dec),
      parseFloatVal loc.lat = some lat → parseFloatVal loc.lon = some lon →
      Pub.selectLocation loc ui =
        ({ inputValue :=
             if loc.display_name = [] then fmtDec lat ++ ',' :: ' ' :: fmtDec lon
             else loc.display_name,
           visible := false },
         [{ display_name :=
              if loc.display_name = [] then Pub.coordName lat lon else loc.display_name,
            lat := JsVal.num lat, lon := JsVal.num lon }])) ∧
    (∀ (loc : RawResult) (s : RW.St) (lat lon : Dec),
      parseFloatVal loc.lat = some lat → parseFloatVal loc.lon = some lon →
      RW.selectLocation loc s =
        ({ s with inputValue := loc.display_name, display := RW.Display.hiddenD },
         [{ display_name := loc.display_name,
            lat := JsVal.num lat, lon := JsVal.num lon }])) ∧
    (∀ (li : V3.LItem) (s : V3.St),
      V3.selectSuggestion li s =
        ({ s with inputValue := li.text, hidden := true },
         [{ display_name := li.text,
            lat := JsVal.str li.dlat, lon := JsVal.str li.dlon }])) := by
  refine ⟨?_, ?_, ?_⟩
  · intro loc ui lat lon h1 h2
    unfold Pub.selectLocation
    rw [h1, h2]
  · intro loc s lat lon h1 h2
    unfold RW.selectLocation RW.floatOrNaN
    rw [h1, h2]
  · intro li s
    rfl

/-- Witness for C3 on a fetched candidate with string coordinates. -/
theorem C3_commit_behavior_witness :
    Pub.selectLocation ⟨['P'], JsVal.str (("48.85").toList), JsVal.str (("2.35").toList)⟩
        ⟨[], true⟩ =
      ({ inputValue := ['P'], visible := false },
       [{ display_name := ['P'], lat := JsVal.num ⟨4885, 2⟩, lon := JsVal.num ⟨235, 2⟩ }]) ∧
    RW.selectLocation ⟨['P'], JsVal.str (("48.85").toList), JsVal.str (("2.35").toList)⟩
        ⟨['q'], [], RW.Display.loading⟩ =
      ({ currentQuery := ['q'], inputValue := ['P'], display := RW.Display.hiddenD },
       [{ display_name := ['P'], lat := JsVal.num ⟨4885, 2⟩, lon := JsVal.num ⟨235, 2⟩ }]) ∧
    V3.selectSuggestion ⟨['P'], ("48.85").toList, ("2.35").toList⟩ ⟨false, [], -1, []⟩ =
      ({ hidden := true, items := [], sel := -1, inputValue := ['P'] },
       [{ display_name := ['P'], lat := JsVal.str (("48.85").toList),
          lon := JsVal.str (("2.35").toList) }]) := by
  refine ⟨?_, ?_, ?_⟩
  · have h := C3_commit_behavior.1
      ⟨['P'], JsVal.str (("48.85").toList), JsVal.str (("2.35").toList)⟩
      ⟨[], true⟩ ⟨4885, 2⟩ ⟨235, 2⟩ (by decide) (by decide)
    rw [h]
    decide
  · have h := C3_commit_behavior.2.1
      ⟨['P'], JsVal.str (("48.85").toList), JsVal.str (("2.35").toList)⟩
      ⟨['q'], [], RW.Display.loading⟩ ⟨4885, 2⟩ ⟨235, 2⟩ (by decide) (by decide)
    rw [h]
  · exact C3_commit_behavior.2.2 ⟨['P'], ("48.85").toList, ("2.35").toList⟩
      ⟨false, [], -1, []⟩

/-! ### C4: Enter with no active suggestion -/

/-- C4 counterexample: with no dropdown open (list hidden and empty) and
the input holding a valid coordinate literal, pressing Enter in the
unnamed variant publishes nothing and changes nothing: the keydown
listener returns before the coordinate re-parse whenever the list is
hidden or empty. -/
theorem C4_counterexample_hidden_enter :
    V3.parseLatLon (trimChars (("37.7749, -122.4194").toList)) =
      some (("37.7749").toList, ("-122.4194").toList) ∧
    V3.enterKey ⟨true, [], -1, ("37.7749, -122.4194").toList⟩ =
      (⟨true, [], -1, ("37.7749, -122.4194").toList⟩, []) := by
  decide

/-- C4 amended: the Enter fallback re-parse runs only while the suggestion
list is visible and non-empty with no valid active selection; it then
publishes one Selection whose lat and lon are the typed component strings,
leaving the input and the dropdown unchanged.  Whenever the dropdown is
hidden or empty, Enter publishes nothing. -/
theorem C4_enter_fallback (s : V3.St) (a b : List Char)
    (h1 : s.hidden = false) (h2 : ¬ s.items = [])
    (h3 : ¬ (0 ≤ s.sel ∧ s.sel.toNat < s.items.length))
    (h4 : V3.parseLatLon s.inputValue = some (a, b)) :
    V3.enterKey s =
      (s, [{ display_name := a ++ ',' :: ' ' :: b,
             lat := JsVal.str a, lon := JsVal.str b }]) ∧
    (∀ s2 : V3.St, (s2.hidden = true ∨ s2.items = []) →
      V3.enterKey s2 = (s2, [])) := by
  constructor
  · unfold V3.enterKey
    rw [if_neg (by simp [h1, h2])]
    rw [dif_neg h3]
    unfold V3.checkDirectLatLon
    rw [h4]
  · intro s2 hs2
    unfold V3.enterKey
    rw [if_pos (by simpa using hs2)]

/-- Witness for C4 on a visible one-item list with nothing selected. -/
theorem C4_enter_fallback_witness :
    V3.enterKey ⟨false, [⟨['A'], ['1'], ['2']⟩], -1, ("3.5, 4.5").toList⟩ =
      (⟨false, [⟨['A'], ['1'], ['2']⟩], -1, ("3.5, 4.5").toList⟩,
       [{ display_name := ("3.5").toList ++ ',' :: ' ' :: ("4.5").toList,
          lat := JsVal.str (("3.5").toList), lon := JsVal.str (("4.5").toList) }]) ∧
    V3.enterKey ⟨true, [], -1, []⟩ = (⟨true, [], -1, []⟩, []) :=
  have h := C4_enter_fallback ⟨false, [⟨['A'], ['1'], ['2']⟩], -1, ("3.5, 4.5").toList⟩
    (("3.5").toList) (("4.5").toList) rfl (by decide) (by decide) (by decide)
  ⟨h.1, h.2 ⟨true, [], -1, []⟩ (Or.inl rfl)⟩

/-! ### C6: the coordinate-range invariant -/

/-- C6 counterexample: the unnamed variant maps fetched geocoding results
to rendered candidates with no range filtering: a raw result whose lat
parses to 999, far outside [-90, 90], is rendered and surfaced. -/
theorem C6_counterexample_out_of_range :
    V3.doSearchBody (("paris").toList)
        (FetchResult.ok (JsonBody.arr
          [⟨("Far").toList, JsVal.str (("999").toList), JsVal.str ['0']⟩])) =
      ([⟨("Far").toList, JsVal.str (("999").toList), JsVal.str ['0']⟩], true, some (-1)) ∧
    jsParseFloat (("999").toList) = some ⟨999, 0⟩ ∧
    ¬ Dec.le ⟨999, 0⟩ (Dec.ofInt 90) := by
  decide

/-- C6 amended: only the synthesized-coordinate branches of the public and
README variants enforce the range invariant (their coordinate match
succeeds only within ranges); fetched geocoding results are mapped onto
the rendered list verbatim, with no range filtering, as shown here for the
unnamed variant, whose synthesized branch is itself also unchecked. -/
theorem C6_range_invariant :
    (∀ (t : List Char) (lat lon : Dec),
      Pub.parseCoordinates t = some (lat, lon) → latLonInRange lat lon) ∧
    (∀ (q : List Char) (lat lon : Dec),
      RW.coordCheck q = some (lat, lon) → latLonInRange lat lon) ∧
    (∀ (t : List Char) (rs : List RawResult),
      ¬ trimChars t = [] → V3.parseLatLon (trimChars t) = none →
      V3.doSearchBody t (FetchResult.ok (JsonBody.arr rs)) =
        (rs.map (fun r => { display_name := r.display_name, lat := r.lat, lon := r.lon }),
         true, some (-1))) := by
  refine ⟨?_, ?_, ?_⟩
  · intro t lat lon h
    unfold Pub.parseCoordinates at h
    split at h
    · split_ifs at h with hr
      · simp at h
        obtain ⟨rfl, rfl⟩ := h
        exact hr
    · simp at h
  · intro q lat lon h
    unfold RW.coordCheck at h
    split at h
    · split_ifs at h with hr
      · simp at h
        obtain ⟨rfl, rfl⟩ := h
        exact hr
    · simp at h
  · intro t rs ht hv
    unfold V3.doSearchBody
    rw [if_neg ht, hv]

/-- Witness for C6: an in-range synthesized pair and a verbatim mapped
fetch. -/
theorem C6_range_invariant_witness :
    latLonInRange ⟨15, 1⟩ ⟨25, 1⟩ ∧
    V3.doSearchBody (("paris").toList)
        (FetchResult.ok (JsonBody.arr [⟨['N'], JsVal.str ['1'], JsVal.str ['2']⟩])) =
      ([⟨['N'], JsVal.str ['1'], JsVal.str ['2']⟩], true, some (-1)) :=
  ⟨C6_range_invariant.1 (("1.5, 2.5").toList) ⟨15, 1⟩ ⟨25, 1⟩ (by decide),
   C6_range_invariant.2.2 (("paris").toList) [⟨['N'], JsVal.str ['1'], JsVal.str ['2']⟩]
     (by decide) (by decide)⟩

/-! ### C7: short input handling -/

/-- C7 counterexample: in public/location-widget.js nothing is cleared
synchronously: the input listener only re-arms the debounce timer, so
right after typing the one-character query S the dropdown still shows the
old results; the list is hidden only once the debounce window fires (and
even then without a network request). -/
theorem C7_counterexample_async_clear :
    Pub.onInputSync ['S']
        { dom := Pub.Render.results [⟨['R'], JsVal.str ['1'], JsVal.str ['2']⟩],
          pending := none } =
      { dom := Pub.Render.results [⟨['R'], JsVal.str ['1'], JsVal.str ['2']⟩],
        pending := some ['S'] } ∧
    Pub.debounceFire FetchResult.netError
        { dom := Pub.Render.results [⟨['R'], JsVal.str ['1'], JsVal.str ['2']⟩],
          pending := some ['S'] } =
      ({ dom := Pub.Render.hide, pending := none }, false) := by
  decide

/-- C7 amended: the README variant clears synchronously: input trimmed
below the two-character minimum hides the list at once and schedules no
query, while length at least two schedules a search for it.  The public
variant leaves the dropdown untouched in the synchronous part of the input
event and hides it only when the debounced body runs, still issuing no
network request for sub-minimum input; a trimmed length of exactly two
does issue a request in both variants. -/
theorem C7_short_input :
    (∀ (v : List Char) (s : RW.St), (trimChars v).length < 2 →
      RW.onInput v s = ({ s with display := RW.Display.hiddenD }, none)) ∧
    (∀ (v : List Char) (s : RW.St), 2 ≤ (trimChars v).length →
      RW.onInput v s = (s, some (trimChars v))) ∧
    (∀ (v : List Char) (s : Pub.Sys), (Pub.onInputSync v s).dom = s.dom) ∧
    (∀ (v : List Char) (f : FetchResult), ¬ trimChars v = [] → (trimChars v).length < 2 →
      Pub.handleInputBody v f = (Pub.Render.hide, false)) ∧
    (∀ (v : List Char) (f : FetchResult), (trimChars v).length = 2 →
      Pub.parseCoordinates (trimChars v) = none →
      (Pub.searchLocation (trimChars v) f).2 = true ∧
      (Pub.handleInputBody v f).2 = true) := by
  refine ⟨?_, ?_, ?_, ?_, ?_⟩
  · intro v s h
    unfold RW.onInput
    rw [if_pos h]
  · intro v s h
    unfold RW.onInput
    rw [if_neg (by omega)]
  · intro v s
    rfl
  · intro v f hne hlen
    have hval : Pub.searchLocation (trimChars v) f = ([], false) := by
      unfold Pub.searchLocation
      rw [trimChars_idem]
      rw [if_pos hlen]
    unfold Pub.handleInputBody
    rw [if_neg hne, pub_parseCoordinates_short (trimChars v) hlen, hval]
    rfl
  · intro v f hlen hpc
    have hval : (Pub.searchLocation (trimChars v) f).2 = true := by
      unfold Pub.searchLocation
      rw [trimChars_idem]
      rw [if_neg (by omega), if_neg (by omega)]
      rcases f with (rs | _) | n | _ <;> rfl
    refine ⟨hval, ?_⟩
    unfold Pub.handleInputBody
    rw [if_neg (by intro h0; rw [h0] at hlen; simp at hlen), hpc]
    rcases hsl : Pub.searchLocation (trimChars v) f with ⟨rs, net⟩
    rw [hsl] at hval
    simp at hval
    subst hval
    show ((if rs = [] then (Pub.Render.hide, true)
      else (Pub.Render.results rs, true)) : Pub.Render × Bool).2 = true
    split <;> rfl

/-- Witness for C7 on the one-character query S and the two-character
query Sa. -/
theorem C7_short_input_witness :
    RW.onInput ['S'] ⟨[], [], RW.Display.loading⟩ =
      ({ currentQuery := [], inputValue := [], display := RW.Display.hiddenD }, none) ∧
    RW.onInput (("Sa").toList) ⟨[], [], RW.Display.hiddenD⟩ =
      (⟨[], [], RW.Display.hiddenD⟩, some (("Sa").toList)) ∧
    (Pub.onInputSync ['S'] { dom := Pub.Render.hide, pending := none }).dom =
      Pub.Render.hide ∧
    Pub.handleInputBody ['S'] FetchResult.netError = (Pub.Render.hide, false) ∧
    (Pub.handleInputBody (("Sa").toList) (FetchResult.ok (JsonBody.arr []))).2 = true :=
  ⟨C7_short_input.1 ['S'] ⟨[], [], RW.Display.loading⟩ (by decide),
   C7_short_input.2.1 (("Sa").toList) ⟨[], [], RW.Display.hiddenD⟩ (by decide),
   C7_short_input.2.2.1 ['S'] { dom := Pub.Render.hide, pending := none },
   C7_short_input.2.2.2.1 ['S'] FetchResult.netError (by decide) (by decide),
   (C7_short_input.2.2.2.2 (("Sa").toList) (FetchResult.ok (JsonBody.arr []))
     (by decide) (by decide)).2⟩
